import Mathlib

/-!
Shallow embedding of `setup.py` of the `shellcheck-py` packaging shim.

The program is a packaging pipeline: resolve the running platform to a
download descriptor, fetch the archive over HTTP, verify its SHA-256
digest, extract the single `shellcheck` executable from a deb/tar/zip
container, and stage it with executable permissions.

External facilities (the network, `hashlib`, `tarfile`/`zipfile` parsing,
the filesystem and the `dpkg-deb`/`rm` subprocesses, `time.time()`) are
modelled as explicit parameters and an effect trace; everything the
program itself computes is embedded as executable Lean functions that
mirror the Python source line by line.
-/

namespace ShellcheckPy

/-! ### Python string primitives used by the source -/

/-- Python `s.endswith(pat)`: `pat` is a suffix of the characters of `s`. -/
def pyEndsWith (s pat : String) : Bool := decide (pat.data <:+ s.data)

/-- Python `pat in s`: `pat` occurs contiguously inside the characters of `s`. -/
def pyContains (s pat : String) : Bool := decide (pat.data <:+: s.data)

/-- Characters after the last `/`, accumulating the current component. -/
def basenameAux : List Char → List Char → List Char
  | [], acc => acc.reverse
  | c :: cs, acc => if c = '/' then basenameAux cs [] else basenameAux cs (c :: acc)

/-- Python `os.path.basename` (POSIX): everything after the last `/`. -/
def basename (p : String) : String :=
  ⟨basenameAux p.data []⟩

/-! ### The descriptor table (`POSTFIX_SHA256`) and `get_download_url` -/

def SHELLCHECK_VERSION : String := "0.8.0"

/-- The `POSTFIX_SHA256` dict of `setup.py`, in insertion order; the three
alias assignments (`cygwin/x86_64`, `darwin/arm64`, `linux/armv7l`) append
new keys sharing the canonical entry's value. -/
def POSTFIX_SHA256 : List ((String × String) × (String × String)) :=
  [ (("linux", "armv6hf"),
     ("linux.armv6hf.tar.xz",
      "17857c8a0a8f4001aa9638732991cbb6e85c4a410500b11e2e0a98d9858afca8")),
    (("linux", "aarch64"),
     ("linux.aarch64.tar.xz",
      "9f47bbff5624babfa712eb9d64ece14c6c46327122d0c54983f627ae3a30a4ac")),
    (("linux", "mips64"),
     ("http://ftp.cn.debian.org/debian/pool/main/s/shellcheck/shellcheck_0.8.0-2~bpo11%2B1_mips64el.deb",
      "")),
    (("linux", "x86_64"),
     ("linux.x86_64.tar.xz",
      "ab6ee1b178f014d1b86d1e24da20d1139656c8b0ed34d2867fbb834dad02bf0a")),
    (("darwin", "x86_64"),
     ("darwin.x86_64.tar.xz",
      "e065d4afb2620cc8c1d420a9b3e6243c84ff1a693c1ff0e38f279c8f31e86634")),
    (("win32", "AMD64"),
     ("zip",
      "2a616cbb5b15aec8238f22c0d62dede1b6d155798adc45ff4d0206395a8a5833")),
    (("cygwin", "x86_64"),
     ("zip",
      "2a616cbb5b15aec8238f22c0d62dede1b6d155798adc45ff4d0206395a8a5833")),
    (("darwin", "arm64"),
     ("darwin.x86_64.tar.xz",
      "e065d4afb2620cc8c1d420a9b3e6243c84ff1a693c1ff0e38f279c8f31e86634")),
    (("linux", "armv7l"),
     ("linux.armv6hf.tar.xz",
      "17857c8a0a8f4001aa9638732991cbb6e85c4a410500b11e2e0a98d9858afca8")) ]

/-- Result of `get_download_url`: either the `(url, sha256)` pair, or the
`KeyError` (a `LookupError`) raised by the dict subscript for an unknown
`(sys.platform, platform.machine())` key. -/
inductive UrlResult where
  | ok (url sha256 : String)
  | lookupError (sysPlatform machine : String)
deriving DecidableEq

/-- The fixed upstream release URL pattern of `get_download_url`. -/
def githubUrl (sfx : String) : String :=
  "https://github.com/koalaman/shellcheck/releases/download/v" ++
    SHELLCHECK_VERSION ++ "/shellcheck-v" ++ SHELLCHECK_VERSION ++ "." ++ sfx

/-- `get_download_url` from `setup.py`, with the two environment reads
`sys.platform` and `platform.machine()` passed as arguments. -/
def get_download_url (sysPlatform machine : String) : UrlResult :=
  match POSTFIX_SHA256.lookup (sysPlatform, machine) with
  | none => .lookupError sysPlatform machine
  | some (sfx, sha256) =>
      let url := if sha256.length > 0 then githubUrl sfx else sfx
      .ok url sha256

/-! ### `download`: fetch plus integrity verification -/

/-- Result of `download`: the body bytes, or one of the two `ValueError`s
the function raises (HTTP failure with the received status code; SHA-256
mismatch reporting both the expected and the computed digest). -/
inductive DownloadResult where
  | ok (data : List Nat)
  | httpError (code : Nat)
  | sha256Mismatch (expected got : String)
deriving DecidableEq

/-- `download` from `setup.py`.  The single HTTP response delivered by
`urllib.request.urlopen` is passed as `(code, respData)` and the external
`hashlib.sha256(...).hexdigest()` as the function `hexdigest`.  Mirrors:
raise on status `!= 200`; raise on `len(sha256) > 0 and checksum != sha256`;
otherwise return the body unchanged. -/
def download (hexdigest : List Nat → String) (code : Nat) (respData : List Nat)
    (sha256 : String) : DownloadResult :=
  if code ≠ 200 then .httpError code
  else
    let checksum := hexdigest respData
    if sha256.length > 0 ∧ checksum ≠ sha256 then .sha256Mismatch sha256 checksum
    else .ok respData

/-! ### `extract`: the three container strategies -/

/-- One member of a tar archive as `tarfile` presents it: its `name`, whether
`isfile()` holds, and the bytes `tarf.extractfile(info).read()` yields. -/
structure TarMember where
  name : String
  isfile : Bool
  content : List Nat
deriving DecidableEq

/-- One entry of a zip archive as `zipfile` presents it in `infolist()`. -/
structure ZipEntry where
  filename : String
  content : List Nat
deriving DecidableEq

/-- The environment of the `.deb` branch of `extract`: the `int(time.time())`
read, and the behaviour of the external `dpkg-deb -x` run — its exit code,
whether `usr/bin/shellcheck` exists in the extracted tree afterwards, and
the bytes read from it when it does. -/
structure DebEnv where
  time : Nat
  dpkgReturncode : Int
  binExists : Bool
  binContent : List Nat
deriving DecidableEq

/-- The filesystem / subprocess effects the `.deb` branch of `extract`
performs, in order. -/
inductive Eff where
  | mkdir (path : String) (mode : Nat)
  | writeFile (path : String) (data : List Nat)
  | runDpkgDeb (debPath tmpDir : String)
  | readFile (path : String)
  | runRmR (path : String)
deriving DecidableEq

/-- Result of `extract`: the executable's bytes, or the
`AssertionError(f'unreachable {url}')` raised when no strategy matches. -/
inductive ExtractResult where
  | ok (data : List Nat)
  | assertionError (msg : String)
deriving DecidableEq

/-- The `io.BytesIO` part of `extract` (the tar and zip strategies and the
final `raise AssertionError`), reached when the URL is not a `.deb` or when
the `.deb` branch did not return.  `tarMembers` is what `tarfile` parses out
of the bytes, `zipEntries` what `zipfile.infolist()` yields, and `zipRead`
the external `zipf.read(name)`. -/
def extractArchive (tarMembers : List TarMember) (zipEntries : List ZipEntry)
    (zipRead : String → List Nat) (url : String) : ExtractResult :=
  if pyContains url ".tar." then
    match tarMembers.find? (fun info => info.isfile && pyEndsWith info.name "shellcheck") with
    | some info => .ok info.content
    | none => .assertionError ("unreachable " ++ url)
  else if pyEndsWith url ".zip" then
    match zipEntries.find? (fun info => pyEndsWith info.filename ".exe") with
    | some info => .ok (zipRead info.filename)
    | none => .assertionError ("unreachable " ++ url)
  else .assertionError ("unreachable " ++ url)

/-- `extract` from `setup.py`, returning the result together with the trace
of filesystem / subprocess effects.  For a URL ending in `.deb` it makes
`/tmp/shellcheck-py-{int(time.time())}` with mode `0o1777`, writes the
archive there, runs `dpkg-deb -x`; only when the exit code is `0` and
`usr/bin/shellcheck` exists does it read that file, run `rm -r` on the
temporary directory and return the bytes — otherwise it falls through to
the tar / zip strategies without removing the directory. -/
def extract (env : DebEnv) (tarMembers : List TarMember) (zipEntries : List ZipEntry)
    (zipRead : String → List Nat) (url : String) (data : List Nat) :
    ExtractResult × List Eff :=
  if pyEndsWith url ".deb" then
    let tmp_dir := "/tmp/shellcheck-py-" ++ toString env.time
    let file_name := basename url
    let file_path := tmp_dir ++ "/" ++ file_name
    let bin := tmp_dir ++ "/" ++ "usr/bin/shellcheck"
    let effs := [Eff.mkdir tmp_dir 0o1777, Eff.writeFile file_path data,
                 Eff.runDpkgDeb file_path tmp_dir]
    if env.dpkgReturncode = 0 ∧ env.binExists = true then
      (.ok env.binContent, effs ++ [Eff.readFile bin, Eff.runRmR tmp_dir])
    else (extractArchive tarMembers zipEntries zipRead url, effs)
  else (extractArchive tarMembers zipEntries zipRead url, [])

/-! ### `save_executable`: staging with executable permissions -/

def S_IXUSR : Nat := 0o100
def S_IXGRP : Nat := 0o10
def S_IXOTH : Nat := 0o1

/-- The staged file `save_executable` produces: its bare file name, its full
path, its bytes, and its final permission mode. -/
structure SavedFile where
  fileName : String
  path : String
  contents : List Nat
  mode : Nat
deriving DecidableEq

/-- `save_executable` from `setup.py`, with `sys.platform` passed as an
argument and `createdMode` the `st_mode` the freshly written file has when
`os.stat` is called (as created by `open(..., 'wb')` under the umask).
Mirrors: pick `shellcheck` unless the platform is `win32` (then
`shellcheck.exe`), write the bytes to `base_dir/exe`, then
`chmod` to `st_mode | S_IXUSR | S_IXGRP | S_IXOTH`. -/
def save_executable (sysPlatform : String) (data : List Nat) (base_dir : String)
    (createdMode : Nat) : SavedFile :=
  let exe := if sysPlatform ≠ "win32" then "shellcheck" else "shellcheck.exe"
  let output_path := base_dir ++ "/" ++ exe
  { fileName := exe, path := output_path, contents := data,
    mode := createdMode ||| S_IXUSR ||| S_IXGRP ||| S_IXOTH }


/-! ### Helper lemmas -/

/-! ### Helper lemmas -/

/-- A string whose length is positive is not the empty string, and conversely. -/
theorem string_length_pos_or_empty (s : String) : s.length > 0 ∨ s = "" := by
  cases s with
  | mk data =>
    cases data with
    | nil => exact Or.inr rfl
    | cons a as => exact Or.inl (by simp [String.length])

/-- A string ending in `.zip` does not end in `.deb`. -/
theorem pyEndsWith_zip_ne_deb (url : String) (h : pyEndsWith url ".zip" = true) :
    pyEndsWith url ".deb" = false := by
  rw [pyEndsWith] at h ⊢
  rw [decide_eq_true_iff] at h
  rw [decide_eq_false_iff_not]
  intro hdeb
  rcases List.suffix_or_suffix_of_suffix h hdeb with h1 | h1
  · exact absurd h1 (by decide)
  · exact absurd h1 (by decide)

/-- `find?` over a split list whose early part has no match finds the split
point when it matches. -/
theorem find_first {α : Type} (p : α → Bool) (pre post : List α) (a : α)
    (hpre : ∀ x ∈ pre, p x = false) (ha : p a = true) :
    (pre ++ a :: post).find? p = some a := by
  induction pre with
  | nil => simp [List.find?_cons, ha]
  | cons x xs ih =>
      have hx : p x = false := hpre x (by simp)
      simp only [List.cons_append, List.find?_cons, hx]
      exact ih (fun y hy => hpre y (by simp [hy]))

/-- C1: with the integrity check reached (HTTP status 200), a non-empty
expected hash makes `download` raise the integrity error reporting both the
expected and the computed digest whenever the computed SHA-256 hex digest
differs, and return the bytes when the digests agree; an empty expected
hash skips verification and the bytes are returned regardless of content.
Stated for every digest function modelling `hashlib.sha256(...).hexdigest()`. -/
theorem download_integrity (hexdigest : List Nat → String)
    (data : List Nat) (sha256 : String) :
    (sha256.length > 0 → hexdigest data ≠ sha256 →
      download hexdigest 200 data sha256 = .sha256Mismatch sha256 (hexdigest data)) ∧
    (sha256.length > 0 → hexdigest data = sha256 →
      download hexdigest 200 data sha256 = .ok data) ∧
    (sha256 = "" → download hexdigest 200 data sha256 = .ok data) := by
  refine ⟨fun hlen hne => ?_, fun hlen heq => ?_, fun hempty => ?_⟩
  · simp [download, hlen, hne]
  · simp [download, heq]
  · subst hempty
    simp [download, String.length]

theorem download_integrity_witness :
    download (fun _ => "aa") 200 [1, 2] "bb" = .sha256Mismatch "bb" "aa" ∧
    download (fun _ => "aa") 200 [1, 2] "aa" = .ok [1, 2] ∧
    download (fun _ => "aa") 200 [1, 2] "" = .ok [1, 2] :=
  ⟨(download_integrity (fun _ => "aa") [1, 2] "bb").1 (by decide) (by decide),
   (download_integrity (fun _ => "aa") [1, 2] "aa").2.1 (by decide) rfl,
   (download_integrity (fun _ => "aa") [1, 2] "").2.2 rfl⟩

/-- C8: `download` consumes exactly one HTTP response; a status other than
200 yields the transport `ValueError` carrying the received status code
(never the body), with status 200 no transport error is raised, and any
bytes it returns are the full response body unmodified (in particular,
with status 200 and a passing or skipped integrity check the body is
returned). -/
theorem download_transport (hexdigest : List Nat → String) (code : Nat)
    (data : List Nat) (sha256 : String) :
    (code ≠ 200 → download hexdigest code data sha256 = .httpError code) ∧
    (code = 200 → ∀ c, download hexdigest code data sha256 ≠ .httpError c) ∧
    (∀ d, download hexdigest code data sha256 = .ok d → d = data) ∧
    (code = 200 → (sha256 = "" ∨ hexdigest data = sha256) →
      download hexdigest code data sha256 = .ok data) := by
  refine ⟨fun hne => ?_, fun heq c => ?_, fun d hd => ?_, fun heq hok => ?_⟩
  · simp [download, hne]
  · subst heq
    simp only [download, ne_eq, not_true_eq_false, if_false]
    split <;> simp
  · unfold download at hd
    split at hd
    · cases hd
    · simp only at hd
      split at hd
      · cases hd
      · cases hd; rfl
  · subst heq
    rcases hok with h | h
    · subst h; simp [download, String.length]
    · simp [download, h]

theorem download_transport_witness :
    download (fun _ => "aa") 404 [1] "" = .httpError 404 ∧
    download (fun _ => "aa") 200 [1] "aa" ≠ .httpError 500 ∧
    download (fun _ => "aa") 200 [1] "aa" = .ok [1] :=
  ⟨(download_transport (fun _ => "aa") 404 [1] "").1 (by decide),
   (download_transport (fun _ => "aa") 200 [1] "aa").2.1 rfl 500,
   (download_transport (fun _ => "aa") 200 [1] "aa").2.2.2 rfl (Or.inr rfl)⟩

/-- C7: a `(sys.platform, platform.machine())` pair absent from the
`POSTFIX_SHA256` table makes `get_download_url` fail with the lookup
error; no descriptor is produced and there is no fallback. -/
theorem get_download_url_unsupported (sysPlatform machine : String)
    (h : POSTFIX_SHA256.lookup (sysPlatform, machine) = none) :
    get_download_url sysPlatform machine = .lookupError sysPlatform machine := by
  unfold get_download_url
  rw [h]

theorem get_download_url_unsupported_witness :
    get_download_url "linux" "riscv64" = .lookupError "linux" "riscv64" :=
  get_download_url_unsupported "linux" "riscv64" (by decide)

/-- C9: for a key present in the `POSTFIX_SHA256` table, `get_download_url`
returns the fixed upstream release URL built from the descriptor's suffix
exactly when the descriptor's expected-hash field is non-empty, and the
descriptor's first field itself as a literal mirror URL exactly when the
hash field is the empty string; the two cases are exhaustive and mutually
exclusive, so the mirror URL is used if and only if verification will be
skipped. -/
theorem get_download_url_descriptor (sysPlatform machine sfx sha256 : String)
    (h : POSTFIX_SHA256.lookup (sysPlatform, machine) = some (sfx, sha256)) :
    (sha256.length > 0 →
      get_download_url sysPlatform machine = .ok (githubUrl sfx) sha256) ∧
    (sha256 = "" → get_download_url sysPlatform machine = .ok sfx sha256) ∧
    (sha256.length > 0 ∨ sha256 = "") ∧ ¬(sha256.length > 0 ∧ sha256 = "") := by
  refine ⟨fun hl => ?_, fun he => ?_, string_length_pos_or_empty sha256, ?_⟩
  · unfold get_download_url
    rw [h]
    simp [hl]
  · unfold get_download_url
    rw [h]
    subst he
    simp [String.length]
  · rintro ⟨hl, he⟩
    subst he
    simp [String.length] at hl

theorem get_download_url_descriptor_witness :
    get_download_url "linux" "x86_64" =
      .ok (githubUrl "linux.x86_64.tar.xz")
        "ab6ee1b178f014d1b86d1e24da20d1139656c8b0ed34d2867fbb834dad02bf0a" ∧
    get_download_url "linux" "mips64" =
      .ok "http://ftp.cn.debian.org/debian/pool/main/s/shellcheck/shellcheck_0.8.0-2~bpo11%2B1_mips64el.deb"
        "" :=
  ⟨(get_download_url_descriptor "linux" "x86_64" "linux.x86_64.tar.xz"
      "ab6ee1b178f014d1b86d1e24da20d1139656c8b0ed34d2867fbb834dad02bf0a"
      (by decide)).1 (by decide),
   (get_download_url_descriptor "linux" "mips64"
      "http://ftp.cn.debian.org/debian/pool/main/s/shellcheck/shellcheck_0.8.0-2~bpo11%2B1_mips64el.deb"
      "" (by decide)).2.1 rfl⟩

/-- The execute bit at a position other than 0, 3 and 6 is clear in
`S_IXUSR ||| S_IXGRP ||| S_IXOTH`. -/
theorem execBits_testBit_eq_false (i : Nat) (h0 : i ≠ 0) (h3 : i ≠ 3) (h6 : i ≠ 6) :
    (S_IXUSR ||| S_IXGRP ||| S_IXOTH).testBit i = false := by
  have hu : S_IXUSR = 2 ^ 6 := rfl
  have hg : S_IXGRP = 2 ^ 3 := rfl
  have ho : S_IXOTH = 2 ^ 0 := rfl
  rw [Nat.testBit_or, Nat.testBit_or, hu, hg, ho,
    Nat.testBit_two_pow_of_ne (fun he => h6 he.symm),
    Nat.testBit_two_pow_of_ne (fun he => h3 he.symm),
    Nat.testBit_two_pow_of_ne (fun he => h0 he.symm)]
  rfl

/-- C6: after `save_executable` the staged file's permission mode is its
creation mode with the owner, group and other execute bits (positions 6,
3 and 0) additionally set: those three bits are set in the final mode,
every bit at any other position equals the corresponding creation bit,
and every bit set at creation remains set (read/write bits preserved). -/
theorem save_executable_mode_bits (sysPlatform : String) (data : List Nat)
    (base_dir : String) (createdMode : Nat) :
    ((save_executable sysPlatform data base_dir createdMode).mode.testBit 0 = true ∧
     (save_executable sysPlatform data base_dir createdMode).mode.testBit 3 = true ∧
     (save_executable sysPlatform data base_dir createdMode).mode.testBit 6 = true) ∧
    (∀ i, i ≠ 0 → i ≠ 3 → i ≠ 6 →
      (save_executable sysPlatform data base_dir createdMode).mode.testBit i =
        createdMode.testBit i) ∧
    (∀ i, createdMode.testBit i = true →
      (save_executable sysPlatform data base_dir createdMode).mode.testBit i = true) := by
  have hmode : (save_executable sysPlatform data base_dir createdMode).mode =
      createdMode ||| (S_IXUSR ||| S_IXGRP ||| S_IXOTH) := by
    unfold save_executable
    simp [Nat.or_assoc]
  refine ⟨⟨?_, ?_, ?_⟩, fun i h0 h3 h6 => ?_, fun i hi => ?_⟩
  · rw [hmode, Nat.testBit_or,
      (by decide : (S_IXUSR ||| S_IXGRP ||| S_IXOTH).testBit 0 = true), Bool.or_true]
  · rw [hmode, Nat.testBit_or,
      (by decide : (S_IXUSR ||| S_IXGRP ||| S_IXOTH).testBit 3 = true), Bool.or_true]
  · rw [hmode, Nat.testBit_or,
      (by decide : (S_IXUSR ||| S_IXGRP ||| S_IXOTH).testBit 6 = true), Bool.or_true]
  · rw [hmode, Nat.testBit_or, execBits_testBit_eq_false i h0 h3 h6, Bool.or_false]
  · rw [hmode, Nat.testBit_or, hi, Bool.true_or]

theorem save_executable_mode_bits_witness :
    (save_executable "linux" [1] "/build" 0o644).mode.testBit 6 = true ∧
    (save_executable "linux" [1] "/build" 0o644).mode.testBit 8 = (0o644 : Nat).testBit 8 ∧
    (save_executable "linux" [1] "/build" 0o644).mode.testBit 7 = true :=
  ⟨(save_executable_mode_bits "linux" [1] "/build" 0o644).1.2.2,
   (save_executable_mode_bits "linux" [1] "/build" 0o644).2.1 8
     (by decide) (by decide) (by decide),
   (save_executable_mode_bits "linux" [1] "/build" 0o644).2.2 7 (by decide)⟩

/-- C10: the staged executable's file name is `shellcheck.exe` if and only
if the platform identifier is exactly `win32`, and the bare `shellcheck`
for every other platform — in particular on `cygwin`, whose archive is the
zip containing an `.exe` entry. -/
theorem save_executable_file_name (sysPlatform : String) (data : List Nat)
    (base_dir : String) (createdMode : Nat) :
    ((save_executable sysPlatform data base_dir createdMode).fileName =
        "shellcheck.exe" ↔ sysPlatform = "win32") ∧
    (sysPlatform ≠ "win32" →
      (save_executable sysPlatform data base_dir createdMode).fileName = "shellcheck") := by
  unfold save_executable
  by_cases h : sysPlatform = "win32"
  · subst h
    refine ⟨by simp, fun hne => absurd rfl hne⟩
  · refine ⟨?_, fun _ => by simp [h]⟩
    simp [h]

theorem save_executable_file_name_witness :
    (save_executable "cygwin" [1] "/build" 0o644).fileName = "shellcheck" :=
  (save_executable_file_name "cygwin" [1] "/build" 0o644).2 (by decide)

/-- The archive fallthrough of `extract` raises the unreachable
`AssertionError` when neither the tar nor the zip strategy matches. -/
theorem extractArchive_no_match (tarMembers : List TarMember)
    (zipEntries : List ZipEntry) (zipRead : String → List Nat) (url : String)
    (htar : ∀ info ∈ tarMembers,
      ¬(info.isfile = true ∧ pyEndsWith info.name "shellcheck" = true))
    (hzip : ∀ info ∈ zipEntries, pyEndsWith info.filename ".exe" = false) :
    extractArchive tarMembers zipEntries zipRead url =
      .assertionError ("unreachable " ++ url) := by
  have h1 : tarMembers.find?
      (fun info => info.isfile && pyEndsWith info.name "shellcheck") = none := by
    rw [List.find?_eq_none]
    intro x hx
    simpa [Bool.and_eq_true] using htar x hx
  have h2 : zipEntries.find? (fun info => pyEndsWith info.filename ".exe") = none := by
    rw [List.find?_eq_none]
    intro x hx
    simp [hzip x hx]
  unfold extractArchive
  split
  · rw [h1]
  · split
    · rw [h2]
    · rfl

/-- C3: for every URL and byte sequence such that no extraction strategy
yields a matching entry — the deb path does not produce the executable,
no tar member is a regular file whose name ends with `shellcheck`, and no
zip entry name ends with `.exe` — `extract` fails with the
`AssertionError` marked `unreachable`, not with a recoverable error. -/
theorem extract_no_match_assertion (env : DebEnv) (tarMembers : List TarMember)
    (zipEntries : List ZipEntry) (zipRead : String → List Nat)
    (url : String) (data : List Nat)
    (hdeb : pyEndsWith url ".deb" = false ∨
      ¬(env.dpkgReturncode = 0 ∧ env.binExists = true))
    (htar : ∀ info ∈ tarMembers,
      ¬(info.isfile = true ∧ pyEndsWith info.name "shellcheck" = true))
    (hzip : ∀ info ∈ zipEntries, pyEndsWith info.filename ".exe" = false) :
    (extract env tarMembers zipEntries zipRead url data).1 =
      .assertionError ("unreachable " ++ url) := by
  have harch := extractArchive_no_match tarMembers zipEntries zipRead url htar hzip
  unfold extract
  by_cases hd : pyEndsWith url ".deb" = true
  · rcases hdeb with h | h
    · rw [hd] at h
      cases h
    · rw [if_pos hd, if_neg h]
      simp [harch]
  · rw [if_neg hd]
    simp [harch]

theorem extract_no_match_assertion_witness :
    (extract ⟨0, 1, false, []⟩ [⟨"shellcheck", false, [1]⟩, ⟨"doc.txt", true, [2]⟩]
      [⟨"shellcheck.txt", [3]⟩] (fun _ => []) "file.bin" [7]).1 =
      .assertionError "unreachable file.bin" :=
  extract_no_match_assertion ⟨0, 1, false, []⟩
    [⟨"shellcheck", false, [1]⟩, ⟨"doc.txt", true, [2]⟩]
    [⟨"shellcheck.txt", [3]⟩] (fun _ => []) "file.bin" [7]
    (Or.inl (by decide)) (by decide) (by decide)

/-- C2 counterexample: for the `.deb` URL `http://x/a.deb`, bytes `[7]` and
a `dpkg-deb` run exiting with code 1, `extract` creates the temporary
directory, writes the archive and invokes the utility, but the effect
trace contains no removal of the temporary directory — the claim that the
directory is deleted also when the utility fails is false on the code. -/
theorem extract_deb_cleanup_cex :
    (extract ⟨0, 1, false, []⟩ [] [] (fun _ => []) "http://x/a.deb" [7]).2 =
      [Eff.mkdir "/tmp/shellcheck-py-0" 0o1777,
       Eff.writeFile "/tmp/shellcheck-py-0/a.deb" [7],
       Eff.runDpkgDeb "/tmp/shellcheck-py-0/a.deb" "/tmp/shellcheck-py-0"] ∧
    Eff.runRmR "/tmp/shellcheck-py-0" ∉
      (extract ⟨0, 1, false, []⟩ [] [] (fun _ => []) "http://x/a.deb" [7]).2 := by
  decide

/-- C2 (amended): for a URL ending in `.deb`, `extract` creates the
uniquely-named temporary directory with mode `0o1777`, writes the archive
into it and invokes `dpkg-deb`; when the utility exits with code 0 and the
internal path `usr/bin/shellcheck` exists it reads that file, removes the
temporary directory and returns the bytes, but when the utility fails or
the internal path is absent the temporary directory is NOT removed — the
effect trace ends with the utility invocation and control falls through
to the archive strategies. -/
theorem extract_deb_trace (env : DebEnv) (tarMembers : List TarMember)
    (zipEntries : List ZipEntry) (zipRead : String → List Nat)
    (url : String) (data : List Nat)
    (hurl : pyEndsWith url ".deb" = true) :
    (env.dpkgReturncode = 0 ∧ env.binExists = true →
      extract env tarMembers zipEntries zipRead url data =
        (.ok env.binContent,
         [Eff.mkdir ("/tmp/shellcheck-py-" ++ toString env.time) 0o1777,
          Eff.writeFile ("/tmp/shellcheck-py-" ++ toString env.time ++ "/" ++ basename url)
            data,
          Eff.runDpkgDeb ("/tmp/shellcheck-py-" ++ toString env.time ++ "/" ++ basename url)
            ("/tmp/shellcheck-py-" ++ toString env.time),
          Eff.readFile ("/tmp/shellcheck-py-" ++ toString env.time ++ "/" ++
            "usr/bin/shellcheck"),
          Eff.runRmR ("/tmp/shellcheck-py-" ++ toString env.time)])) ∧
    (¬(env.dpkgReturncode = 0 ∧ env.binExists = true) →
      (extract env tarMembers zipEntries zipRead url data).2 =
        [Eff.mkdir ("/tmp/shellcheck-py-" ++ toString env.time) 0o1777,
         Eff.writeFile ("/tmp/shellcheck-py-" ++ toString env.time ++ "/" ++ basename url)
           data,
         Eff.runDpkgDeb ("/tmp/shellcheck-py-" ++ toString env.time ++ "/" ++ basename url)
           ("/tmp/shellcheck-py-" ++ toString env.time)] ∧
      Eff.runRmR ("/tmp/shellcheck-py-" ++ toString env.time) ∉
        (extract env tarMembers zipEntries zipRead url data).2) := by
  constructor
  · intro hok
    unfold extract
    rw [if_pos hurl, if_pos hok]
    rfl
  · intro hfail
    unfold extract
    rw [if_pos hurl, if_neg hfail]
    refine ⟨rfl, ?_⟩
    intro hmem
    simp at hmem

theorem extract_deb_trace_witness :
    extract ⟨5, 0, true, [9]⟩ [] [] (fun _ => []) "http://x/a.deb" [7] =
      (.ok [9],
       [Eff.mkdir "/tmp/shellcheck-py-5" 0o1777,
        Eff.writeFile "/tmp/shellcheck-py-5/a.deb" [7],
        Eff.runDpkgDeb "/tmp/shellcheck-py-5/a.deb" "/tmp/shellcheck-py-5",
        Eff.readFile "/tmp/shellcheck-py-5/usr/bin/shellcheck",
        Eff.runRmR "/tmp/shellcheck-py-5"]) ∧
    Eff.runRmR "/tmp/shellcheck-py-3" ∉
      (extract ⟨3, 2, true, []⟩ [] [] (fun _ => []) "http://x/b.deb" [8]).2 :=
  ⟨(extract_deb_trace ⟨5, 0, true, [9]⟩ [] [] (fun _ => []) "http://x/a.deb" [7]
      (by decide)).1 (by decide),
   ((extract_deb_trace ⟨3, 2, true, []⟩ [] [] (fun _ => []) "http://x/b.deb" [8]
      (by decide)).2 (by decide)).2⟩

/-- C4 counterexample: the URL `http://x/shellcheck.tar.deb` contains the
tar indicator `.tar.` and the tar archive holds exactly one regular-file
member ending in `shellcheck` with bytes `[1]`, yet when the OS-package
branch succeeds (the URL also ends in `.deb`, `dpkg-deb` exits 0 and the
internal path exists with bytes `[0]`) `extract` returns `[0]`, not the
tar member's bytes `[1]` — the deb strategy takes precedence, so the
claim as stated fails. -/
theorem extract_tar_deb_precedence_cex :
    pyContains "http://x/shellcheck.tar.deb" ".tar." = true ∧
    (extract ⟨0, 0, true, [0]⟩ [⟨"pkg/shellcheck", true, [1]⟩] []
      (fun _ => []) "http://x/shellcheck.tar.deb" [7]).1 = .ok [0] ∧
    (extract ⟨0, 0, true, [0]⟩ [⟨"pkg/shellcheck", true, [1]⟩] []
      (fun _ => []) "http://x/shellcheck.tar.deb" [7]).1 ≠ .ok [1] := by
  decide

/-- C4 (amended): for every URL containing the tar indicator `.tar.` such
that the OS-package strategy does not return first (the URL does not end
in `.deb`, or the `dpkg-deb` run fails, or the internal path is absent),
`extract` returns the bytes of the first member in archive order that is
a regular file whose name ends with `shellcheck` — in particular, for an
archive with exactly one such member among unrelated members it returns
exactly that member's bytes unmodified. -/
theorem extract_tar_first_match (env : DebEnv) (tarMembers : List TarMember)
    (zipEntries : List ZipEntry) (zipRead : String → List Nat)
    (url : String) (data : List Nat)
    (hdeb : ¬(pyEndsWith url ".deb" = true ∧
      env.dpkgReturncode = 0 ∧ env.binExists = true))
    (htar : pyContains url ".tar." = true)
    (pre post : List TarMember) (info : TarMember)
    (hsplit : tarMembers = pre ++ info :: post)
    (hpre : ∀ m ∈ pre, ¬(m.isfile = true ∧ pyEndsWith m.name "shellcheck" = true))
    (hinfo : info.isfile = true ∧ pyEndsWith info.name "shellcheck" = true) :
    (extract env tarMembers zipEntries zipRead url data).1 = .ok info.content := by
  have hfind : tarMembers.find?
      (fun i => i.isfile && pyEndsWith i.name "shellcheck") = some info := by
    rw [hsplit]
    refine find_first _ pre post info (fun x hx => ?_) ?_
    · have := hpre x hx
      rw [Bool.eq_false_iff]
      intro hcontra
      exact this (Bool.and_eq_true .. ▸ hcontra)
    · rw [Bool.and_eq_true]
      exact hinfo
  have harch : extractArchive tarMembers zipEntries zipRead url = .ok info.content := by
    unfold extractArchive
    rw [if_pos htar, hfind]
  unfold extract
  by_cases hd : pyEndsWith url ".deb" = true
  · have hfail : ¬(env.dpkgReturncode = 0 ∧ env.binExists = true) := by
      intro hok
      exact hdeb ⟨hd, hok⟩
    rw [if_pos hd, if_neg hfail]
    exact harch
  · rw [if_neg hd]
    exact harch

theorem extract_tar_first_match_witness :
    (extract ⟨0, 1, false, []⟩
      [⟨"README", true, [5]⟩, ⟨"pkg/shellcheck", true, [1, 2]⟩, ⟨"pkg/shellcheck", true, [3]⟩]
      [] (fun _ => []) "shellcheck-v0.8.0.linux.x86_64.tar.xz" [7]).1 = .ok [1, 2] :=
  extract_tar_first_match ⟨0, 1, false, []⟩
    [⟨"README", true, [5]⟩, ⟨"pkg/shellcheck", true, [1, 2]⟩, ⟨"pkg/shellcheck", true, [3]⟩]
    [] (fun _ => []) "shellcheck-v0.8.0.linux.x86_64.tar.xz" [7]
    (by decide) (by decide)
    [⟨"README", true, [5]⟩] [⟨"pkg/shellcheck", true, [3]⟩] ⟨"pkg/shellcheck", true, [1, 2]⟩
    rfl (by decide) (by decide)

/-- C5: for every URL ending in `.zip` and not containing `.tar.`, and
every zip archive (entry list together with a name-consistent
`zipf.read`) whose entry list has a first entry whose filename ends in
`.exe`, `extract` returns that entry's bytes unmodified. -/
theorem extract_zip_first_exe (env : DebEnv) (tarMembers : List TarMember)
    (zipEntries : List ZipEntry) (zipRead : String → List Nat)
    (url : String) (data : List Nat)
    (hurl : pyEndsWith url ".zip" = true)
    (hnotar : pyContains url ".tar." = false)
    (hread : ∀ e ∈ zipEntries, zipRead e.filename = e.content)
    (pre post : List ZipEntry) (info : ZipEntry)
    (hsplit : zipEntries = pre ++ info :: post)
    (hpre : ∀ e ∈ pre, pyEndsWith e.filename ".exe" = false)
    (hinfo : pyEndsWith info.filename ".exe" = true) :
    (extract env tarMembers zipEntries zipRead url data).1 = .ok info.content := by
  have hd : pyEndsWith url ".deb" = false := pyEndsWith_zip_ne_deb url hurl
  have hfind : zipEntries.find? (fun i => pyEndsWith i.filename ".exe") = some info := by
    rw [hsplit]
    exact find_first _ pre post info hpre hinfo
  have hmem : info ∈ zipEntries := by
    rw [hsplit]
    simp
  unfold extract
  rw [if_neg (by rw [hd]; exact Bool.false_ne_true)]
  unfold extractArchive
  rw [if_neg (by rw [hnotar]; exact Bool.false_ne_true), if_pos hurl, hfind]
  simp only [hread info hmem]

theorem extract_zip_first_exe_witness :
    (extract ⟨0, 1, false, []⟩ []
      [⟨"readme.txt", [4]⟩, ⟨"shellcheck.exe", [1, 2]⟩, ⟨"other.exe", [3]⟩]
      (fun n => if n = "readme.txt" then [4]
        else if n = "shellcheck.exe" then [1, 2]
        else if n = "other.exe" then [3] else [])
      "shellcheck-v0.8.0.zip" [7]).1 = .ok [1, 2] :=
  extract_zip_first_exe ⟨0, 1, false, []⟩ []
    [⟨"readme.txt", [4]⟩, ⟨"shellcheck.exe", [1, 2]⟩, ⟨"other.exe", [3]⟩]
    (fun n => if n = "readme.txt" then [4]
      else if n = "shellcheck.exe" then [1, 2]
      else if n = "other.exe" then [3] else [])
    "shellcheck-v0.8.0.zip" [7] (by decide) (by decide) (by decide)
    [⟨"readme.txt", [4]⟩] [⟨"other.exe", [3]⟩] ⟨"shellcheck.exe", [1, 2]⟩
    rfl (by decide) (by decide)

/-- C8 counterexample: with HTTP status 200 but a declared expected hash
`bb` that differs from the computed digest `aa`, `download` does not
return the response body: it raises the integrity error instead.  The
claim's unconditional "returns the full response body as bytes when the
HTTP status is 200" is therefore false on the code. -/
theorem download_http_200_cex :
    download (fun _ => "aa") 200 [1] "bb" = .sha256Mismatch "bb" "aa" ∧
    download (fun _ => "aa") 200 [1] "bb" ≠ .ok [1] := by
  decide

end ShellcheckPy
